import Mathlib

/-!
Shallow embedding of `src/src/server/ua_discovery.c` (the Discovery Manager of
an OPC UA server): the lifecycle state machine with its drain gate, the
registration-table cleanup tick, the outbound register pool and its
asynchronous callbacks. External collaborators (event loop, transport,
allocator, file probe) appear as explicit parameters/oracles.
-/

namespace UADiscovery

/-! ## Status codes (values from the OPC UA standard, as used by the source) -/

def UA_STATUSCODE_GOOD : Nat := 0x00000000
def UA_STATUSCODE_BADINTERNALERROR : Nat := 0x80020000
def UA_STATUSCODE_BADOUTOFMEMORY : Nat := 0x80030000
def UA_STATUSCODE_BADNOTIMPLEMENTED : Nat := 0x80400000
def UA_STATUSCODE_BADSERVICEUNSUPPORTED : Nat := 0x800B0000
def UA_STATUSCODE_BADCONNECTIONCLOSED : Nat := 0x80AE0000
def UA_STATUSCODE_BADTIMEOUT : Nat := 0x800A0000

/-- 100ns ticks per second: `UA_DATETIME_SEC`. -/
def UA_DATETIME_SEC : Int := 10000000

/-! ## Data model -/

inductive UA_LifecycleState where
  | STOPPED
  | STARTING
  | STARTED
  | STOPPING
deriving DecidableEq, Repr

/-- One slot of the outbound register pool (`asyncRegisterRequest`).
`client = none` models `client == NULL` (slot free). The non-owning
back-references `server`/`dm` and the callback handle are not part of the
observable state. -/
structure asyncRegisterRequest where
  client : Option Unit
  unregister : Bool
  semaphoreFilePath : String
deriving DecidableEq, Repr

/-- The all-zero slot produced by `memset(ar, 0, sizeof(asyncRegisterRequest))`. -/
def emptyRegisterRequest : asyncRegisterRequest :=
  { client := none, unregister := false, semaphoreFilePath := "" }

/-- The generic server-component header `dm->sc`: observable state plus whether
the optional `notifyState` hook is installed. -/
structure UA_ServerComponent where
  state : UA_LifecycleState
  notifyInstalled : Bool
deriving DecidableEq, Repr

/-- The Discovery Manager state relevant to the lifecycle drain gate.
`multicastEnabled` is the `UA_ENABLE_DISCOVERY_MULTICAST` capability flag;
`mdnsSendConnection = 0` models the unallocated send connection. -/
structure UA_DiscoveryManager where
  sc : UA_ServerComponent
  multicastEnabled : Bool
  mdnsRecvConnectionsSize : Nat
  mdnsSendConnection : Nat
  registerRequests : List asyncRegisterRequest
deriving DecidableEq, Repr

/-! ## Lifecycle controller: `UA_DiscoveryManager_setState` -/

/-- The target-state computation at the top of `UA_DiscoveryManager_setState`:
for `STOPPING`/`STOPPED` targets, first set `STOPPED`, downgrade to
`STOPPING` if multicast connections remain, then downgrade to `STOPPING`
if any pool slot still has `client != NULL`. -/
def effectiveTarget (dm : UA_DiscoveryManager) (state : UA_LifecycleState) :
    UA_LifecycleState :=
  if state = UA_LifecycleState.STOPPING ∨ state = UA_LifecycleState.STOPPED then
    if dm.registerRequests.any (fun ar => ar.client.isSome) then
      UA_LifecycleState.STOPPING
    else if dm.multicastEnabled &&
            (dm.mdnsRecvConnectionsSize != 0 || dm.mdnsSendConnection != 0) then
      UA_LifecycleState.STOPPING
    else
      UA_LifecycleState.STOPPED
  else state

/-- `UA_DiscoveryManager_setState`. Returns the new manager and `some s` when
`dm->sc.notifyState` was invoked with new state `s` (`none` when the hook is
absent or no change happened). -/
def UA_DiscoveryManager_setState (dm : UA_DiscoveryManager)
    (state : UA_LifecycleState) :
    UA_DiscoveryManager × Option UA_LifecycleState :=
  if effectiveTarget dm state = dm.sc.state then
    (dm, none)
  else
    ({ dm with sc := { dm.sc with state := effectiveTarget dm state } },
     if dm.sc.notifyInstalled then some (effectiveTarget dm state) else none)

/-! ## Basic lemmas about the drain gate -/

theorem setState_registerRequests (dm : UA_DiscoveryManager)
    (s : UA_LifecycleState) :
    (UA_DiscoveryManager_setState dm s).1.registerRequests =
      dm.registerRequests := by
  unfold UA_DiscoveryManager_setState
  split <;> rfl

theorem setState_state_eq_effectiveTarget (dm : UA_DiscoveryManager)
    (s : UA_LifecycleState) :
    (UA_DiscoveryManager_setState dm s).1.sc.state = effectiveTarget dm s := by
  unfold UA_DiscoveryManager_setState
  split
  · next h => exact h.symm
  · rfl

theorem effectiveTarget_stopped_iff (dm : UA_DiscoveryManager)
    (s : UA_LifecycleState)
    (hs : s = UA_LifecycleState.STOPPING ∨ s = UA_LifecycleState.STOPPED) :
    effectiveTarget dm s = UA_LifecycleState.STOPPED ↔
      (¬(dm.multicastEnabled = true ∧
          (dm.mdnsRecvConnectionsSize ≠ 0 ∨ dm.mdnsSendConnection ≠ 0)) ∧
       ∀ ar ∈ dm.registerRequests, ar.client = none) := by
  unfold effectiveTarget
  rw [if_pos hs]
  by_cases hany : (dm.registerRequests.any fun ar => ar.client.isSome) = true
  · rw [if_pos hany]
    constructor
    · intro h
      exact absurd h (by simp)
    · rintro ⟨_, hall⟩
      exfalso
      rw [List.any_eq_true] at hany
      obtain ⟨ar, har, hcl⟩ := hany
      rw [hall ar har] at hcl
      simp at hcl
  · rw [if_neg hany]
    by_cases hmd : (dm.multicastEnabled &&
        (dm.mdnsRecvConnectionsSize != 0 || dm.mdnsSendConnection != 0)) = true
    · rw [if_pos hmd]
      constructor
      · intro h
        exact absurd h (by simp)
      · rintro ⟨hm, _⟩
        exfalso
        rw [Bool.and_eq_true, Bool.or_eq_true] at hmd
        apply hm
        refine ⟨hmd.1, ?_⟩
        rcases hmd.2 with h | h
        · left; simpa using h
        · right; simpa using h
    · rw [if_neg hmd]
      constructor
      · intro _
        constructor
        · rintro ⟨hm, hc⟩
          apply hmd
          rw [Bool.and_eq_true, Bool.or_eq_true]
          refine ⟨hm, ?_⟩
          rcases hc with h | h
          · left; simpa using h
          · right; simpa using h
        · intro ar har
          by_contra hne
          apply hany
          rw [List.any_eq_true]
          refine ⟨ar, har, ?_⟩
          cases h' : ar.client
          · exact absurd h' hne
          · rfl
      · intro _
        rfl

/-! ## Claim theorems for the drain gate -/

/-- Claim C1: for every invocation of `setState` with target `STOPPING` or
`STOPPED`, the resulting state is `STOPPED` only if every pool slot has
`client = null` and (when multicast is enabled) no multicast receive
connection remains open and the send connection is unallocated; if residual
work exists, the effective target is downgraded to `STOPPING`. -/
theorem C1_setState_drain_gate (dm : UA_DiscoveryManager)
    (s : UA_LifecycleState)
    (hs : s = UA_LifecycleState.STOPPING ∨ s = UA_LifecycleState.STOPPED) :
    ((UA_DiscoveryManager_setState dm s).1.sc.state = UA_LifecycleState.STOPPED →
      (∀ ar ∈ dm.registerRequests, ar.client = none) ∧
      (dm.multicastEnabled = true →
        dm.mdnsRecvConnectionsSize = 0 ∧ dm.mdnsSendConnection = 0)) ∧
    ((∃ ar ∈ dm.registerRequests, ar.client ≠ none) ∨
      (dm.multicastEnabled = true ∧
        (dm.mdnsRecvConnectionsSize ≠ 0 ∨ dm.mdnsSendConnection ≠ 0)) →
      effectiveTarget dm s = UA_LifecycleState.STOPPING) := by
  constructor
  · intro h
    rw [setState_state_eq_effectiveTarget] at h
    rw [effectiveTarget_stopped_iff dm s hs] at h
    refine ⟨h.2, ?_⟩
    intro hm
    constructor
    · by_contra hc
      exact h.1 ⟨hm, Or.inl hc⟩
    · by_contra hc
      exact h.1 ⟨hm, Or.inr hc⟩
  · intro h
    have hne : effectiveTarget dm s ≠ UA_LifecycleState.STOPPED := by
      intro hEq
      rw [effectiveTarget_stopped_iff dm s hs] at hEq
      obtain ⟨hm, hall⟩ := hEq
      rcases h with ⟨ar, har, hcl⟩ | hmc
      · exact hcl (hall ar har)
      · exact hm hmc
    have htri : effectiveTarget dm s = UA_LifecycleState.STOPPING ∨
        effectiveTarget dm s = UA_LifecycleState.STOPPED := by
      unfold effectiveTarget
      rw [if_pos hs]
      split
      · left; rfl
      · split
        · left; rfl
        · right; rfl
    rcases htri with h' | h'
    · exact h'
    · exact absurd h' hne

/-- Witness for C1 at a concrete manager with one occupied slot. -/
theorem C1_setState_drain_gate_witness :
    ((UA_DiscoveryManager_setState
        { sc := { state := UA_LifecycleState.STARTED, notifyInstalled := true },
          multicastEnabled := false, mdnsRecvConnectionsSize := 0,
          mdnsSendConnection := 0,
          registerRequests := [{ client := some (), unregister := false,
                                 semaphoreFilePath := "" }] }
        UA_LifecycleState.STOPPED).1.sc.state = UA_LifecycleState.STOPPED →
      (∀ ar ∈ [({ client := some (), unregister := false,
                  semaphoreFilePath := "" } : asyncRegisterRequest)],
        ar.client = none) ∧
      (false = true → (0 : Nat) = 0 ∧ (0 : Nat) = 0)) ∧
    ((∃ ar ∈ [({ client := some (), unregister := false,
                 semaphoreFilePath := "" } : asyncRegisterRequest)],
        ar.client ≠ none) ∨
      (false = true ∧ ((0 : Nat) ≠ 0 ∨ (0 : Nat) ≠ 0)) →
      effectiveTarget
        { sc := { state := UA_LifecycleState.STARTED, notifyInstalled := true },
          multicastEnabled := false, mdnsRecvConnectionsSize := 0,
          mdnsSendConnection := 0,
          registerRequests := [{ client := some (), unregister := false,
                                 semaphoreFilePath := "" }] }
        UA_LifecycleState.STOPPED = UA_LifecycleState.STOPPING) :=
  C1_setState_drain_gate _ _ (Or.inr rfl)

/-- Claim C10: `setState` is silent when the effective target equals the
current state; otherwise the new state is written and `notifyState`
(when installed) is called with it, so consecutive notifications always
carry distinct states. -/
theorem C10_setState_notify (dm : UA_DiscoveryManager)
    (s : UA_LifecycleState) :
    (effectiveTarget dm s = dm.sc.state →
      UA_DiscoveryManager_setState dm s = (dm, none)) ∧
    (effectiveTarget dm s ≠ dm.sc.state →
      (UA_DiscoveryManager_setState dm s).1.sc.state = effectiveTarget dm s ∧
      ((UA_DiscoveryManager_setState dm s).2 =
        if dm.sc.notifyInstalled then some (effectiveTarget dm s) else none)) ∧
    (∀ v, (UA_DiscoveryManager_setState dm s).2 = some v →
      v ≠ dm.sc.state ∧ (UA_DiscoveryManager_setState dm s).1.sc.state = v) ∧
    (∀ s' v v',
      (UA_DiscoveryManager_setState dm s).2 = some v →
      (UA_DiscoveryManager_setState (UA_DiscoveryManager_setState dm s).1 s').2 =
        some v' →
      v ≠ v') := by
  refine ⟨?_, ?_, ?_, ?_⟩
  · intro h
    unfold UA_DiscoveryManager_setState
    rw [if_pos h]
  · intro h
    unfold UA_DiscoveryManager_setState
    rw [if_neg h]
    exact ⟨rfl, rfl⟩
  · intro v hv
    unfold UA_DiscoveryManager_setState at hv ⊢
    split at hv
    · exact absurd hv (by simp)
    · next hne =>
      split at hv
      · simp only [Option.some.injEq] at hv
        subst hv
        exact ⟨fun hc => hne hc, by rw [if_neg hne]⟩
      · exact absurd hv (by simp)
  · intro s' v v' hv hv'
    have h1 : (UA_DiscoveryManager_setState dm s).1.sc.state = v := by
      unfold UA_DiscoveryManager_setState at hv ⊢
      split at hv
      · exact absurd hv (by simp)
      · next hne =>
        split at hv
        · simp only [Option.some.injEq] at hv
          rw [if_neg hne, ← hv]
        · exact absurd hv (by simp)
    have h2 : v' ≠ (UA_DiscoveryManager_setState dm s).1.sc.state := by
      set dm1 := (UA_DiscoveryManager_setState dm s).1 with hdm1
      unfold UA_DiscoveryManager_setState at hv'
      split at hv'
      · exact absurd hv' (by simp)
      · next hne =>
        split at hv'
        · simp only [Option.some.injEq] at hv'
          rw [← hv']
          exact hne
        · exact absurd hv' (by simp)
    intro hc
    rw [← hc] at h2
    rw [h1] at h2
    exact h2 rfl

/-- Witness for C10 at a concrete manager and target. -/
theorem C10_setState_notify_witness :
    (effectiveTarget
        { sc := { state := UA_LifecycleState.STOPPED, notifyInstalled := true },
          multicastEnabled := false, mdnsRecvConnectionsSize := 0,
          mdnsSendConnection := 0, registerRequests := [] }
        UA_LifecycleState.STARTED =
        UA_LifecycleState.STOPPED →
      UA_DiscoveryManager_setState
        { sc := { state := UA_LifecycleState.STOPPED, notifyInstalled := true },
          multicastEnabled := false, mdnsRecvConnectionsSize := 0,
          mdnsSendConnection := 0, registerRequests := [] }
        UA_LifecycleState.STARTED =
        ({ sc := { state := UA_LifecycleState.STOPPED, notifyInstalled := true },
           multicastEnabled := false, mdnsRecvConnectionsSize := 0,
           mdnsSendConnection := 0, registerRequests := [] }, none)) ∧
    (effectiveTarget
        { sc := { state := UA_LifecycleState.STOPPED, notifyInstalled := true },
          multicastEnabled := false, mdnsRecvConnectionsSize := 0,
          mdnsSendConnection := 0, registerRequests := [] }
        UA_LifecycleState.STARTED ≠
        UA_LifecycleState.STOPPED →
      (UA_DiscoveryManager_setState
        { sc := { state := UA_LifecycleState.STOPPED, notifyInstalled := true },
          multicastEnabled := false, mdnsRecvConnectionsSize := 0,
          mdnsSendConnection := 0, registerRequests := [] }
        UA_LifecycleState.STARTED).1.sc.state =
        effectiveTarget
          { sc := { state := UA_LifecycleState.STOPPED, notifyInstalled := true },
            multicastEnabled := false, mdnsRecvConnectionsSize := 0,
            mdnsSendConnection := 0, registerRequests := [] }
          UA_LifecycleState.STARTED ∧
      ((UA_DiscoveryManager_setState
        { sc := { state := UA_LifecycleState.STOPPED, notifyInstalled := true },
          multicastEnabled := false, mdnsRecvConnectionsSize := 0,
          mdnsSendConnection := 0, registerRequests := [] }
        UA_LifecycleState.STARTED).2 =
        if true then some (effectiveTarget
          { sc := { state := UA_LifecycleState.STOPPED, notifyInstalled := true },
            multicastEnabled := false, mdnsRecvConnectionsSize := 0,
            mdnsSendConnection := 0, registerRequests := [] }
          UA_LifecycleState.STARTED) else none)) ∧
    (∀ v, (UA_DiscoveryManager_setState
        { sc := { state := UA_LifecycleState.STOPPED, notifyInstalled := true },
          multicastEnabled := false, mdnsRecvConnectionsSize := 0,
          mdnsSendConnection := 0, registerRequests := [] }
        UA_LifecycleState.STARTED).2 = some v →
      v ≠ UA_LifecycleState.STOPPED ∧
      (UA_DiscoveryManager_setState
        { sc := { state := UA_LifecycleState.STOPPED, notifyInstalled := true },
          multicastEnabled := false, mdnsRecvConnectionsSize := 0,
          mdnsSendConnection := 0, registerRequests := [] }
        UA_LifecycleState.STARTED).1.sc.state = v) ∧
    (∀ s' v v',
      (UA_DiscoveryManager_setState
        { sc := { state := UA_LifecycleState.STOPPED, notifyInstalled := true },
          multicastEnabled := false, mdnsRecvConnectionsSize := 0,
          mdnsSendConnection := 0, registerRequests := [] }
        UA_LifecycleState.STARTED).2 = some v →
      (UA_DiscoveryManager_setState
        (UA_DiscoveryManager_setState
          { sc := { state := UA_LifecycleState.STOPPED, notifyInstalled := true },
            multicastEnabled := false, mdnsRecvConnectionsSize := 0,
            mdnsSendConnection := 0, registerRequests := [] }
          UA_LifecycleState.STARTED).1 s').2 = some v' →
      v ≠ v') :=
  C10_setState_notify _ _

/-! ## Registration table cleanup: `UA_DiscoveryManager_cleanupTimedOut` -/

/-- Outcome of probing a semaphore file in the cleanup tick: the file exists,
the file is missing, or the `UA_malloc` for the path buffer failed. -/
inductive SemaphoreProbe where
  | present
  | missing
  | allocFailure
deriving DecidableEq, Repr

/-- One entry of the registration table (`registeredServer_list_entry`),
restricted to the fields the cleanup tick reads. `lastSeen` is a monotonic
`UA_DateTime` in 100ns ticks. -/
structure registeredServer_list_entry where
  serverUri : String
  semaphoreFilePath : String
  lastSeen : Int
deriving DecidableEq, Repr

/-- The `semaphoreDeleted` flag computed per entry: with the semaphore
capability compiled in and a nonempty path, probe the file; `missing` sets the
flag, `present` and `allocFailure` (logged) leave it false. -/
def semaphoreDeleted (semaphoreEnabled : Bool)
    (probe : String → SemaphoreProbe)
    (e : registeredServer_list_entry) : Bool :=
  if semaphoreEnabled && (e.semaphoreFilePath.length != 0) then
    match probe e.semaphoreFilePath with
    | SemaphoreProbe.missing => true
    | SemaphoreProbe.present => false
    | SemaphoreProbe.allocFailure => false
  else false

/-- The per-entry removal decision of `UA_DiscoveryManager_cleanupTimedOut`:
`semaphoreDeleted || (discoveryCleanupTimeout && lastSeen < timedOut)` where
`timedOut = now - discoveryCleanupTimeout * UA_DATETIME_SEC` when the timeout
is nonzero. -/
def cleanupRemovesEntry (discoveryCleanupTimeout : Nat) (now : Int)
    (semaphoreEnabled : Bool) (probe : String → SemaphoreProbe)
    (e : registeredServer_list_entry) : Bool :=
  semaphoreDeleted semaphoreEnabled probe e ||
    (decide (discoveryCleanupTimeout ≠ 0) &&
     decide (e.lastSeen <
       now - (discoveryCleanupTimeout : Int) * UA_DATETIME_SEC))

/-- `UA_DiscoveryManager_cleanupTimedOut` restricted to the registration
table: the entries surviving one tick (the subsequent multicast send does not
touch the table). -/
def UA_DiscoveryManager_cleanupTimedOut (discoveryCleanupTimeout : Nat)
    (now : Int) (semaphoreEnabled : Bool) (probe : String → SemaphoreProbe)
    (entries : List registeredServer_list_entry) :
    List registeredServer_list_entry :=
  entries.filter
    (fun e => !cleanupRemovesEntry discoveryCleanupTimeout now
                semaphoreEnabled probe e)

/-- Claim C2: on every cleanup tick an entry is removed iff its semaphore file
is confirmed missing, or the configured timeout is nonzero and `lastSeen` is
strictly below `now` minus the timeout; a probe that fails from memory
exhaustion never sets the semaphore-deleted flag, and a zero timeout disables
time-based eviction. -/
theorem C2_cleanup_removal (discoveryCleanupTimeout : Nat) (now : Int)
    (semaphoreEnabled : Bool) (probe : String → SemaphoreProbe)
    (e : registeredServer_list_entry)
    (entries : List registeredServer_list_entry) :
    (cleanupRemovesEntry discoveryCleanupTimeout now semaphoreEnabled probe e
        = true ↔
      (semaphoreEnabled = true ∧ e.semaphoreFilePath.length ≠ 0 ∧
        probe e.semaphoreFilePath = SemaphoreProbe.missing) ∨
      (discoveryCleanupTimeout ≠ 0 ∧
        e.lastSeen <
          now - (discoveryCleanupTimeout : Int) * UA_DATETIME_SEC)) ∧
    (probe e.semaphoreFilePath = SemaphoreProbe.allocFailure →
      semaphoreDeleted semaphoreEnabled probe e = false) ∧
    (discoveryCleanupTimeout = 0 →
      (cleanupRemovesEntry discoveryCleanupTimeout now semaphoreEnabled probe e
          = true ↔
        (semaphoreEnabled = true ∧ e.semaphoreFilePath.length ≠ 0 ∧
          probe e.semaphoreFilePath = SemaphoreProbe.missing))) ∧
    (e ∈ UA_DiscoveryManager_cleanupTimedOut discoveryCleanupTimeout now
        semaphoreEnabled probe entries ↔
      e ∈ entries ∧
        cleanupRemovesEntry discoveryCleanupTimeout now semaphoreEnabled probe e
          = false) := by
  have hsem : semaphoreDeleted semaphoreEnabled probe e = true ↔
      (semaphoreEnabled = true ∧ e.semaphoreFilePath.length ≠ 0 ∧
        probe e.semaphoreFilePath = SemaphoreProbe.missing) := by
    unfold semaphoreDeleted
    by_cases hc : (semaphoreEnabled && (e.semaphoreFilePath.length != 0)) = true
    · rw [if_pos hc]
      rw [Bool.and_eq_true] at hc
      cases hp : probe e.semaphoreFilePath
      · simp [hp]
      · simp only [hp]
        constructor
        · intro _
          exact ⟨hc.1, by simpa using hc.2, trivial⟩
        · intro _
          trivial
      · simp [hp]
    · rw [if_neg hc]
      constructor
      · intro h
        exact absurd h (by simp)
      · rintro ⟨h1, h2, _⟩
        exfalso
        apply hc
        rw [Bool.and_eq_true]
        exact ⟨h1, by simpa using h2⟩
  refine ⟨?_, ?_, ?_, ?_⟩
  · unfold cleanupRemovesEntry
    rw [Bool.or_eq_true, Bool.and_eq_true, hsem]
    simp only [decide_eq_true_eq]
  · intro hp
    unfold semaphoreDeleted
    split
    · rw [hp]
    · rfl
  · intro h0
    subst h0
    unfold cleanupRemovesEntry
    rw [Bool.or_eq_true, hsem]
    simp
  · unfold UA_DiscoveryManager_cleanupTimedOut
    rw [List.mem_filter]
    simp only [Bool.not_eq_true']

/-- Witness for C2 at a concrete entry whose semaphore file is missing. -/
theorem C2_cleanup_removal_witness :
    (cleanupRemovesEntry 0 50000000 true (fun _ => SemaphoreProbe.missing)
        { serverUri := "urn:srv", semaphoreFilePath := "/tmp/srv.sem",
          lastSeen := 0 } = true ↔
      (true = true ∧ ("/tmp/srv.sem").length ≠ 0 ∧
        (fun _ => SemaphoreProbe.missing) "/tmp/srv.sem" =
          SemaphoreProbe.missing) ∨
      ((0 : Nat) ≠ 0 ∧ (0 : Int) < 50000000 - ((0 : Nat) : Int) *
        UA_DATETIME_SEC)) ∧
    ((fun _ => SemaphoreProbe.missing) "/tmp/srv.sem" =
        SemaphoreProbe.allocFailure →
      semaphoreDeleted true (fun _ => SemaphoreProbe.missing)
        { serverUri := "urn:srv", semaphoreFilePath := "/tmp/srv.sem",
          lastSeen := 0 } = false) ∧
    ((0 : Nat) = 0 →
      (cleanupRemovesEntry 0 50000000 true (fun _ => SemaphoreProbe.missing)
          { serverUri := "urn:srv", semaphoreFilePath := "/tmp/srv.sem",
            lastSeen := 0 } = true ↔
        (true = true ∧ ("/tmp/srv.sem").length ≠ 0 ∧
          (fun _ => SemaphoreProbe.missing) "/tmp/srv.sem" =
            SemaphoreProbe.missing))) ∧
    ({ serverUri := "urn:srv", semaphoreFilePath := "/tmp/srv.sem",
        lastSeen := 0 } ∈
      UA_DiscoveryManager_cleanupTimedOut 0 50000000 true
        (fun _ => SemaphoreProbe.missing)
        [{ serverUri := "urn:srv", semaphoreFilePath := "/tmp/srv.sem",
           lastSeen := 0 }] ↔
      ({ serverUri := "urn:srv", semaphoreFilePath := "/tmp/srv.sem",
          lastSeen := 0 } : registeredServer_list_entry) ∈
        [({ serverUri := "urn:srv", semaphoreFilePath := "/tmp/srv.sem",
            lastSeen := 0 } : registeredServer_list_entry)] ∧
        cleanupRemovesEntry 0 50000000 true (fun _ => SemaphoreProbe.missing)
          { serverUri := "urn:srv", semaphoreFilePath := "/tmp/srv.sem",
            lastSeen := 0 } = false) :=
  C2_cleanup_removal 0 50000000 true (fun _ => SemaphoreProbe.missing) _ _

/-! ## Outbound client callbacks -/

inductive UA_SecureChannelState where
  | CLOSED
  | CONNECTING
  | OPEN
  | CLOSING
deriving DecidableEq, Repr

def UA_MESSAGESECURITYMODE_INVALID : Nat := 0
def UA_MESSAGESECURITYMODE_SIGNANDENCRYPT : Nat := 3

/-- Observable side effects a callback performs on its client/slot, in order. -/
inductive ClientAction where
  | logInfo
  | logWarning
  | logError
  | disconnectSecureChannelAsync
  | callRegisterServer
  | callRegisterServer2
  | enqueueCleanupCallback
  | clearSlotNow
deriving DecidableEq, Repr

/-- `registerAsyncResponse`: handler of the `RegisterServer` response.
`serviceResult` is `response->responseHeader.serviceResult`;
`register2CallResult` is what `__UA_Client_AsyncService` returns for the
`RegisterServer2` fallback when it is issued. -/
def registerAsyncResponse (serviceResult : Nat)
    (register2CallResult : Nat) : List ClientAction :=
  if serviceResult = UA_STATUSCODE_GOOD then
    [ClientAction.disconnectSecureChannelAsync, ClientAction.logInfo]
  else if serviceResult ≠ UA_STATUSCODE_BADNOTIMPLEMENTED ∧
          serviceResult ≠ UA_STATUSCODE_BADSERVICEUNSUPPORTED then
    [ClientAction.disconnectSecureChannelAsync, ClientAction.logWarning]
  else
    ClientAction.callRegisterServer2 ::
      (if register2CallResult ≠ UA_STATUSCODE_GOOD then
        [ClientAction.disconnectSecureChannelAsync, ClientAction.logError]
      else [])

/-- `register2AsyncResponse`: handler of the `RegisterServer2` response. Logs
success or failure and disconnects the secure channel asynchronously in both
cases. -/
def register2AsyncResponse (serviceResult : Nat) : List ClientAction :=
  (if serviceResult = UA_STATUSCODE_GOOD then [ClientAction.logInfo]
   else [ClientAction.logWarning]) ++
    [ClientAction.disconnectSecureChannelAsync]

/-- `discoveryClientStateCallback`: reacts to the observed
`(channelState, connectStatus)` pair and the security mode read back from the
client. `registerCallResult` is the return of `__UA_Client_AsyncService` for
the `RegisterServer` call when it is issued. -/
def discoveryClientStateCallback (channelState : UA_SecureChannelState)
    (connectStatus : Nat) (securityMode : Nat)
    (registerCallResult : Nat) : List ClientAction :=
  if connectStatus ≠ UA_STATUSCODE_GOOD then
    (if connectStatus ≠ UA_STATUSCODE_BADCONNECTIONCLOSED then
      [ClientAction.logError]
    else []) ++
      (if channelState = UA_SecureChannelState.CLOSED then
        [ClientAction.enqueueCleanupCallback]
      else [])
  else if channelState ≠ UA_SecureChannelState.OPEN then []
  else if securityMode ≠ UA_MESSAGESECURITYMODE_SIGNANDENCRYPT then []
  else
    ClientAction.callRegisterServer ::
      (if registerCallResult ≠ UA_STATUSCODE_GOOD then
        [ClientAction.disconnectSecureChannelAsync, ClientAction.logError]
      else [])

/-- Claim C3: the `RegisterServer` handler disconnects on `GOOD`, falls back
to `RegisterServer2` on `BADNOTIMPLEMENTED`/`BADSERVICEUNSUPPORTED` (without
surfacing an error when the fallback call succeeds), disconnects and logs on
any other result; the `RegisterServer2` handler disconnects on both success
and failure; no path retries a registration. -/
theorem C3_response_handlers (serviceResult register2CallResult : Nat) :
    (serviceResult = UA_STATUSCODE_GOOD →
      registerAsyncResponse serviceResult register2CallResult =
        [ClientAction.disconnectSecureChannelAsync, ClientAction.logInfo]) ∧
    ((serviceResult = UA_STATUSCODE_BADNOTIMPLEMENTED ∨
      serviceResult = UA_STATUSCODE_BADSERVICEUNSUPPORTED) →
      ClientAction.callRegisterServer2 ∈
        registerAsyncResponse serviceResult register2CallResult ∧
      (register2CallResult = UA_STATUSCODE_GOOD →
        registerAsyncResponse serviceResult register2CallResult =
          [ClientAction.callRegisterServer2])) ∧
    (serviceResult ≠ UA_STATUSCODE_GOOD →
      serviceResult ≠ UA_STATUSCODE_BADNOTIMPLEMENTED →
      serviceResult ≠ UA_STATUSCODE_BADSERVICEUNSUPPORTED →
      registerAsyncResponse serviceResult register2CallResult =
        [ClientAction.disconnectSecureChannelAsync, ClientAction.logWarning]) ∧
    ClientAction.disconnectSecureChannelAsync ∈
      register2AsyncResponse serviceResult ∧
    ClientAction.callRegisterServer ∉
      registerAsyncResponse serviceResult register2CallResult ∧
    ClientAction.callRegisterServer ∉ register2AsyncResponse serviceResult ∧
    ClientAction.callRegisterServer2 ∉ register2AsyncResponse serviceResult := by
  have hne1 : UA_STATUSCODE_BADNOTIMPLEMENTED ≠ UA_STATUSCODE_GOOD := by decide
  have hne2 : UA_STATUSCODE_BADSERVICEUNSUPPORTED ≠ UA_STATUSCODE_GOOD := by
    decide
  refine ⟨?_, ?_, ?_, ?_, ?_, ?_, ?_⟩
  · intro h
    unfold registerAsyncResponse
    rw [if_pos h]
  · intro h
    have hg : serviceResult ≠ UA_STATUSCODE_GOOD := by
      rcases h with h | h <;> rw [h] <;> assumption
    have hnot : ¬(serviceResult ≠ UA_STATUSCODE_BADNOTIMPLEMENTED ∧
        serviceResult ≠ UA_STATUSCODE_BADSERVICEUNSUPPORTED) := by
      rintro ⟨h1, h2⟩
      rcases h with h | h
      · exact h1 h
      · exact h2 h
    unfold registerAsyncResponse
    rw [if_neg hg, if_neg hnot]
    constructor
    · exact List.mem_cons_self _ _
    · intro h2g
      rw [if_neg (by simpa using h2g)]
  · intro hg h1 h2
    unfold registerAsyncResponse
    rw [if_neg hg, if_pos ⟨h1, h2⟩]
  · unfold register2AsyncResponse
    split <;> simp
  · unfold registerAsyncResponse
    split
    · simp
    · split
      · simp
      · intro hmem
        rcases List.mem_cons.mp hmem with h | h
        · exact absurd h (by simp)
        · split at h <;> simp_all
  · unfold register2AsyncResponse
    split <;> simp
  · unfold register2AsyncResponse
    split <;> simp

/-- Witness for C3 at the `BADSERVICEUNSUPPORTED` fallback input. -/
theorem C3_response_handlers_witness :
    (UA_STATUSCODE_BADSERVICEUNSUPPORTED = UA_STATUSCODE_GOOD →
      registerAsyncResponse UA_STATUSCODE_BADSERVICEUNSUPPORTED
          UA_STATUSCODE_GOOD =
        [ClientAction.disconnectSecureChannelAsync, ClientAction.logInfo]) ∧
    ((UA_STATUSCODE_BADSERVICEUNSUPPORTED = UA_STATUSCODE_BADNOTIMPLEMENTED ∨
      UA_STATUSCODE_BADSERVICEUNSUPPORTED =
        UA_STATUSCODE_BADSERVICEUNSUPPORTED) →
      ClientAction.callRegisterServer2 ∈
        registerAsyncResponse UA_STATUSCODE_BADSERVICEUNSUPPORTED
          UA_STATUSCODE_GOOD ∧
      (UA_STATUSCODE_GOOD = UA_STATUSCODE_GOOD →
        registerAsyncResponse UA_STATUSCODE_BADSERVICEUNSUPPORTED
            UA_STATUSCODE_GOOD =
          [ClientAction.callRegisterServer2])) ∧
    (UA_STATUSCODE_BADSERVICEUNSUPPORTED ≠ UA_STATUSCODE_GOOD →
      UA_STATUSCODE_BADSERVICEUNSUPPORTED ≠ UA_STATUSCODE_BADNOTIMPLEMENTED →
      UA_STATUSCODE_BADSERVICEUNSUPPORTED ≠
        UA_STATUSCODE_BADSERVICEUNSUPPORTED →
      registerAsyncResponse UA_STATUSCODE_BADSERVICEUNSUPPORTED
          UA_STATUSCODE_GOOD =
        [ClientAction.disconnectSecureChannelAsync, ClientAction.logWarning]) ∧
    ClientAction.disconnectSecureChannelAsync ∈
      register2AsyncResponse UA_STATUSCODE_BADSERVICEUNSUPPORTED ∧
    ClientAction.callRegisterServer ∉
      registerAsyncResponse UA_STATUSCODE_BADSERVICEUNSUPPORTED
        UA_STATUSCODE_GOOD ∧
    ClientAction.callRegisterServer ∉
      register2AsyncResponse UA_STATUSCODE_BADSERVICEUNSUPPORTED ∧
    ClientAction.callRegisterServer2 ∉
      register2AsyncResponse UA_STATUSCODE_BADSERVICEUNSUPPORTED :=
  C3_response_handlers UA_STATUSCODE_BADSERVICEUNSUPPORTED UA_STATUSCODE_GOOD

/-! ## Request payload: `setupRegisterRequest` -/

/-- The application description fields of the server config that
`setupRegisterRequest` reads. -/
structure UA_ApplicationDescription where
  applicationUri : String
  productUri : String
  applicationType : Nat
  gatewayServerUri : String
  applicationName : String
  discoveryUrls : List String
deriving DecidableEq, Repr

structure UA_RequestHeader where
  timeoutHint : Nat
deriving DecidableEq, Repr

/-- The `RegisteredServer` wire structure populated by
`setupRegisterRequest`. -/
structure UA_RegisteredServer where
  isOnline : Bool
  serverUri : String
  productUri : String
  serverType : Nat
  gatewayServerUri : String
  semaphoreFilePath : String
  serverNames : List String
  discoveryUrls : List String
deriving DecidableEq, Repr

/-- `setupRegisterRequest`: fills the request header and the
`RegisteredServer` body from the hosting server's application description and
the slot. -/
def setupRegisterRequest (appDesc : UA_ApplicationDescription)
    (ar : asyncRegisterRequest) : UA_RequestHeader × UA_RegisteredServer :=
  ({ timeoutHint := 10000 },
   { isOnline := !ar.unregister,
     serverUri := appDesc.applicationUri,
     productUri := appDesc.productUri,
     serverType := appDesc.applicationType,
     gatewayServerUri := appDesc.gatewayServerUri,
     semaphoreFilePath := ar.semaphoreFilePath,
     serverNames := [appDesc.applicationName],
     discoveryUrls := appDesc.discoveryUrls })

/-- Claim C9: for both service variants the outbound request has
`timeoutHint = 10000` and a `RegisteredServer` body with
`isOnline = !unregister`, `serverUri = applicationUri`,
`serverType = applicationType`, `productUri` and `gatewayServerUri` from the
application description, `semaphoreFilePath` from the slot, exactly one
`serverName` (the application name), and the full discovery URL list. -/
theorem C9_setupRegisterRequest_payload (appDesc : UA_ApplicationDescription)
    (ar : asyncRegisterRequest) :
    (setupRegisterRequest appDesc ar).1.timeoutHint = 10000 ∧
    (setupRegisterRequest appDesc ar).2.isOnline = !ar.unregister ∧
    (setupRegisterRequest appDesc ar).2.serverUri = appDesc.applicationUri ∧
    (setupRegisterRequest appDesc ar).2.productUri = appDesc.productUri ∧
    (setupRegisterRequest appDesc ar).2.serverType =
      appDesc.applicationType ∧
    (setupRegisterRequest appDesc ar).2.gatewayServerUri =
      appDesc.gatewayServerUri ∧
    (setupRegisterRequest appDesc ar).2.semaphoreFilePath =
      ar.semaphoreFilePath ∧
    (setupRegisterRequest appDesc ar).2.serverNames =
      [appDesc.applicationName] ∧
    (setupRegisterRequest appDesc ar).2.serverNames.length = 1 ∧
    (setupRegisterRequest appDesc ar).2.discoveryUrls =
      appDesc.discoveryUrls :=
  ⟨rfl, rfl, rfl, rfl, rfl, rfl, rfl, rfl, rfl, rfl⟩

/-! ## `UA_Server_register` and the lifecycle operations -/

/-- State of the caller-supplied `UA_ClientConfig` after the call:
untouched, `UA_ClientConfig_clear`ed (members freed), or
`memset(cc, 0, ...)` zeroed (ownership moved into the new client). -/
inductive ConfigState where
  | live
  | cleared
  | zeroed
deriving DecidableEq, Repr

/-- Observable outcome of `UA_Server_register`: the returned status, what
happened to the caller's config, the pool afterwards, and which slot (if any)
was taken. -/
structure RegisterOutcome where
  status : Nat
  cc : ConfigState
  registerRequests : List asyncRegisterRequest
  usedSlot : Option Nat
deriving DecidableEq, Repr

/-- The free-slot scan of `UA_Server_register`: first index with
`client == NULL`. -/
def findFreeSlot (pool : List asyncRegisterRequest) : Option Nat :=
  pool.findIdx? (fun ar => ar.client.isNone)

/-- `UA_Server_register`. `dmFound` models whether the `"discovery"`
component lookup succeeded; `clientNewOk` whether `UA_Client_newWithConfig`
allocated; `connectResult` is the status returned by the external
`__UA_Client_connect(ar->client, true)`. -/
def UA_Server_register (dmFound : Bool) (dm : UA_DiscoveryManager)
    (unregister : Bool) (semaphoreFilePath : String)
    (clientNewOk : Bool) (connectResult : Nat) : RegisterOutcome :=
  if dmFound = false then
    { status := UA_STATUSCODE_BADINTERNALERROR, cc := ConfigState.cleared,
      registerRequests := dm.registerRequests, usedSlot := none }
  else if dm.sc.state ≠ UA_LifecycleState.STARTED then
    { status := UA_STATUSCODE_BADINTERNALERROR, cc := ConfigState.cleared,
      registerRequests := dm.registerRequests, usedSlot := none }
  else
    match findFreeSlot dm.registerRequests with
    | none =>
      { status := UA_STATUSCODE_BADINTERNALERROR, cc := ConfigState.cleared,
        registerRequests := dm.registerRequests, usedSlot := none }
    | some i =>
      if clientNewOk = false then
        { status := UA_STATUSCODE_BADOUTOFMEMORY, cc := ConfigState.cleared,
          registerRequests := dm.registerRequests, usedSlot := none }
      else
        { status := connectResult, cc := ConfigState.zeroed,
          registerRequests := dm.registerRequests.set i
            { client := some (), unregister := unregister,
              semaphoreFilePath := semaphoreFilePath },
          usedSlot := some i }

/-- Outcome of `UA_DiscoveryManager_start`: returned status, the manager
afterwards, whether the repeated cleanup callback ended up registered, and
whether the multicast advertiser was booted. -/
structure StartOutcome where
  status : Nat
  dm : UA_DiscoveryManager
  cleanupScheduled : Bool
  multicastStarted : Bool
deriving DecidableEq, Repr

/-- `UA_DiscoveryManager_start`. `addCallbackResult` is the status returned
by the external `addRepeatedCallback`. -/
def UA_DiscoveryManager_start (dm : UA_DiscoveryManager)
    (addCallbackResult : Nat) (mdnsEnabled : Bool) : StartOutcome :=
  if dm.sc.state ≠ UA_LifecycleState.STOPPED then
    { status := UA_STATUSCODE_BADINTERNALERROR, dm := dm,
      cleanupScheduled := false, multicastStarted := false }
  else if addCallbackResult ≠ UA_STATUSCODE_GOOD then
    { status := addCallbackResult, dm := dm,
      cleanupScheduled := false, multicastStarted := false }
  else
    { status := UA_STATUSCODE_GOOD,
      dm := (UA_DiscoveryManager_setState dm UA_LifecycleState.STARTED).1,
      cleanupScheduled := true,
      multicastStarted := dm.multicastEnabled && mdnsEnabled }

/-- `UA_DiscoveryManager_free`, reduced to its guard: the returned status and
whether the manager's resources were released. -/
def UA_DiscoveryManager_free (dm : UA_DiscoveryManager) : Nat × Bool :=
  if dm.sc.state ≠ UA_LifecycleState.STOPPED then
    (UA_STATUSCODE_BADINTERNALERROR, false)
  else
    (UA_STATUSCODE_GOOD, true)

/-- A started manager with a single free pool slot, used as concrete input. -/
def startedManagerOneFreeSlot : UA_DiscoveryManager :=
  { sc := { state := UA_LifecycleState.STARTED, notifyInstalled := false },
    multicastEnabled := false, mdnsRecvConnectionsSize := 0,
    mdnsSendConnection := 0,
    registerRequests := [emptyRegisterRequest] }

/-- Counterexample to claim C4 as stated: with a free slot and a successful
client allocation, `UA_Server_register` returns whatever
`__UA_Client_connect` returns; at `BADCONNECTIONCLOSED` this is none of
`GOOD`, `BADINTERNALERROR`, `BADOUTOFMEMORY`. -/
theorem C4_register_status_counterexample :
    ¬((UA_Server_register true startedManagerOneFreeSlot false "" true
          UA_STATUSCODE_BADCONNECTIONCLOSED).status = UA_STATUSCODE_GOOD ∨
      (UA_Server_register true startedManagerOneFreeSlot false "" true
          UA_STATUSCODE_BADCONNECTIONCLOSED).status =
        UA_STATUSCODE_BADINTERNALERROR ∨
      (UA_Server_register true startedManagerOneFreeSlot false "" true
          UA_STATUSCODE_BADCONNECTIONCLOSED).status =
        UA_STATUSCODE_BADOUTOFMEMORY) := by
  decide

/-- Claim C4, amended: `registerDiscovery`/`deregisterDiscovery` return
`BADINTERNALERROR` (wrong state or no free slot), `BADOUTOFMEMORY` (client
allocation failure), or the status of the asynchronous connect initiation —
`GOOD` when that succeeds. -/
theorem C4_register_status (dmFound : Bool) (dm : UA_DiscoveryManager)
    (unregister : Bool) (semaphoreFilePath : String)
    (clientNewOk : Bool) (connectResult : Nat) :
    ((UA_Server_register dmFound dm unregister semaphoreFilePath clientNewOk
        connectResult).status = UA_STATUSCODE_BADINTERNALERROR ∨
     (UA_Server_register dmFound dm unregister semaphoreFilePath clientNewOk
        connectResult).status = UA_STATUSCODE_BADOUTOFMEMORY ∨
     (UA_Server_register dmFound dm unregister semaphoreFilePath clientNewOk
        connectResult).status = connectResult) ∧
    (connectResult = UA_STATUSCODE_GOOD →
      ((UA_Server_register dmFound dm unregister semaphoreFilePath clientNewOk
          connectResult).status = UA_STATUSCODE_GOOD ∨
       (UA_Server_register dmFound dm unregister semaphoreFilePath clientNewOk
          connectResult).status = UA_STATUSCODE_BADINTERNALERROR ∨
       (UA_Server_register dmFound dm unregister semaphoreFilePath clientNewOk
          connectResult).status = UA_STATUSCODE_BADOUTOFMEMORY)) := by
  constructor
  · unfold UA_Server_register
    split
    · left; rfl
    · split
      · left; rfl
      · split
        · left; rfl
        · split
          · right; left; rfl
          · right; right; rfl
  · intro hg
    unfold UA_Server_register
    split
    · right; left; rfl
    · split
      · right; left; rfl
      · split
        · right; left; rfl
        · split
          · right; right; rfl
          · left; exact hg

/-- Witness for C4 (amended) at a successful concrete call. -/
theorem C4_register_status_witness :
    ((UA_Server_register true startedManagerOneFreeSlot false "" true
        UA_STATUSCODE_GOOD).status = UA_STATUSCODE_BADINTERNALERROR ∨
     (UA_Server_register true startedManagerOneFreeSlot false "" true
        UA_STATUSCODE_GOOD).status = UA_STATUSCODE_BADOUTOFMEMORY ∨
     (UA_Server_register true startedManagerOneFreeSlot false "" true
        UA_STATUSCODE_GOOD).status = UA_STATUSCODE_GOOD) ∧
    (UA_STATUSCODE_GOOD = UA_STATUSCODE_GOOD →
      ((UA_Server_register true startedManagerOneFreeSlot false "" true
          UA_STATUSCODE_GOOD).status = UA_STATUSCODE_GOOD ∨
       (UA_Server_register true startedManagerOneFreeSlot false "" true
          UA_STATUSCODE_GOOD).status = UA_STATUSCODE_BADINTERNALERROR ∨
       (UA_Server_register true startedManagerOneFreeSlot false "" true
          UA_STATUSCODE_GOOD).status = UA_STATUSCODE_BADOUTOFMEMORY)) :=
  C4_register_status true startedManagerOneFreeSlot false "" true
    UA_STATUSCODE_GOOD

/-- Claim C5: every lifecycle violation returns `BADINTERNALERROR` with no
state change — `start` outside `STOPPED` schedules nothing, `free` outside
`STOPPED` frees nothing, register outside `STARTED` occupies no slot. -/
theorem C5_lifecycle_violations (dm : UA_DiscoveryManager)
    (addCallbackResult : Nat) (mdnsEnabled : Bool) (unregister : Bool)
    (semaphoreFilePath : String) (clientNewOk : Bool) (connectResult : Nat) :
    (dm.sc.state ≠ UA_LifecycleState.STOPPED →
      UA_DiscoveryManager_start dm addCallbackResult mdnsEnabled =
        { status := UA_STATUSCODE_BADINTERNALERROR, dm := dm,
          cleanupScheduled := false, multicastStarted := false }) ∧
    (dm.sc.state ≠ UA_LifecycleState.STOPPED →
      UA_DiscoveryManager_free dm = (UA_STATUSCODE_BADINTERNALERROR, false)) ∧
    (dm.sc.state ≠ UA_LifecycleState.STARTED →
      UA_Server_register true dm unregister semaphoreFilePath clientNewOk
          connectResult =
        { status := UA_STATUSCODE_BADINTERNALERROR, cc := ConfigState.cleared,
          registerRequests := dm.registerRequests, usedSlot := none }) := by
  refine ⟨?_, ?_, ?_⟩
  · intro h
    unfold UA_DiscoveryManager_start
    rw [if_pos h]
  · intro h
    unfold UA_DiscoveryManager_free
    rw [if_pos h]
  · intro h
    unfold UA_Server_register
    rw [if_neg (by simp), if_pos h]

/-- Witness for C5 at a manager stuck in `STOPPING` (neither `STOPPED` nor
`STARTED`). -/
theorem C5_lifecycle_violations_witness :
    (({ sc := { state := UA_LifecycleState.STOPPING, notifyInstalled := false },
        multicastEnabled := false, mdnsRecvConnectionsSize := 0,
        mdnsSendConnection := 0,
        registerRequests := [emptyRegisterRequest] } :
          UA_DiscoveryManager).sc.state ≠ UA_LifecycleState.STOPPED →
      UA_DiscoveryManager_start
          { sc := { state := UA_LifecycleState.STOPPING,
                    notifyInstalled := false },
            multicastEnabled := false, mdnsRecvConnectionsSize := 0,
            mdnsSendConnection := 0,
            registerRequests := [emptyRegisterRequest] }
          UA_STATUSCODE_GOOD false =
        { status := UA_STATUSCODE_BADINTERNALERROR,
          dm := { sc := { state := UA_LifecycleState.STOPPING,
                          notifyInstalled := false },
                  multicastEnabled := false, mdnsRecvConnectionsSize := 0,
                  mdnsSendConnection := 0,
                  registerRequests := [emptyRegisterRequest] },
          cleanupScheduled := false, multicastStarted := false }) ∧
    (({ sc := { state := UA_LifecycleState.STOPPING, notifyInstalled := false },
        multicastEnabled := false, mdnsRecvConnectionsSize := 0,
        mdnsSendConnection := 0,
        registerRequests := [emptyRegisterRequest] } :
          UA_DiscoveryManager).sc.state ≠ UA_LifecycleState.STOPPED →
      UA_DiscoveryManager_free
          { sc := { state := UA_LifecycleState.STOPPING,
                    notifyInstalled := false },
            multicastEnabled := false, mdnsRecvConnectionsSize := 0,
            mdnsSendConnection := 0,
            registerRequests := [emptyRegisterRequest] } =
        (UA_STATUSCODE_BADINTERNALERROR, false)) ∧
    (({ sc := { state := UA_LifecycleState.STOPPING, notifyInstalled := false },
        multicastEnabled := false, mdnsRecvConnectionsSize := 0,
        mdnsSendConnection := 0,
        registerRequests := [emptyRegisterRequest] } :
          UA_DiscoveryManager).sc.state ≠ UA_LifecycleState.STARTED →
      UA_Server_register true
          { sc := { state := UA_LifecycleState.STOPPING,
                    notifyInstalled := false },
            multicastEnabled := false, mdnsRecvConnectionsSize := 0,
            mdnsSendConnection := 0,
            registerRequests := [emptyRegisterRequest] }
          false "" true UA_STATUSCODE_GOOD =
        { status := UA_STATUSCODE_BADINTERNALERROR, cc := ConfigState.cleared,
          registerRequests := [emptyRegisterRequest], usedSlot := none }) :=
  C5_lifecycle_violations _ UA_STATUSCODE_GOOD false false "" true
    UA_STATUSCODE_GOOD

/-- Case analysis of `UA_Server_register`: it either fails before client
construction with `BADINTERNALERROR`, fails allocation with
`BADOUTOFMEMORY`, or takes the first free slot and returns the connect
status. -/
theorem UA_Server_register_cases (dmFound : Bool) (dm : UA_DiscoveryManager)
    (unregister : Bool) (semaphoreFilePath : String)
    (clientNewOk : Bool) (connectResult : Nat) :
    (UA_Server_register dmFound dm unregister semaphoreFilePath clientNewOk
        connectResult =
      { status := UA_STATUSCODE_BADINTERNALERROR, cc := ConfigState.cleared,
        registerRequests := dm.registerRequests, usedSlot := none } ∧
      (dmFound = false ∨ dm.sc.state ≠ UA_LifecycleState.STARTED ∨
        findFreeSlot dm.registerRequests = none)) ∨
    (UA_Server_register dmFound dm unregister semaphoreFilePath clientNewOk
        connectResult =
      { status := UA_STATUSCODE_BADOUTOFMEMORY, cc := ConfigState.cleared,
        registerRequests := dm.registerRequests, usedSlot := none } ∧
      clientNewOk = false) ∨
    (∃ i, findFreeSlot dm.registerRequests = some i ∧
      UA_Server_register dmFound dm unregister semaphoreFilePath clientNewOk
          connectResult =
        { status := connectResult, cc := ConfigState.zeroed,
          registerRequests := dm.registerRequests.set i
            { client := some (), unregister := unregister,
              semaphoreFilePath := semaphoreFilePath },
          usedSlot := some i }) := by
  unfold UA_Server_register
  split
  · next h => exact Or.inl ⟨rfl, Or.inl h⟩
  · split
    · next h => exact Or.inl ⟨rfl, Or.inr (Or.inl h)⟩
    · split
      · next h => exact Or.inl ⟨rfl, Or.inr (Or.inr h)⟩
      · next i h =>
        split
        · next hok => exact Or.inr (Or.inl ⟨rfl, hok⟩)
        · exact Or.inr (Or.inr ⟨i, h, rfl⟩)

/-- Counterexample to claim C6 as stated: when the client is constructed but
the asynchronous connect initiation fails, the call returns a failure status
with the config zeroed (not cleared) and the pool slot occupied. -/
theorem C6_register_ownership_counterexample :
    (UA_Server_register true startedManagerOneFreeSlot false "" true
        UA_STATUSCODE_BADCONNECTIONCLOSED).status ≠ UA_STATUSCODE_GOOD ∧
    (UA_Server_register true startedManagerOneFreeSlot false "" true
        UA_STATUSCODE_BADCONNECTIONCLOSED).cc ≠ ConfigState.cleared ∧
    (UA_Server_register true startedManagerOneFreeSlot false "" true
        UA_STATUSCODE_BADCONNECTIONCLOSED).registerRequests =
      [{ client := some (), unregister := false, semaphoreFilePath := "" }] := by
  decide

/-- Claim C6, amended: on the failure paths before client construction
(missing component, wrong state, pool full, allocation failure) the config is
cleared and no slot is occupied; once the client is constructed the config is
zeroed (ownership moved) and the chosen — previously free — slot holds the
client, even when the connect initiation fails; a `GOOD` return always means
the config was consumed. -/
theorem C6_register_ownership (dmFound : Bool) (dm : UA_DiscoveryManager)
    (unregister : Bool) (semaphoreFilePath : String)
    (clientNewOk : Bool) (connectResult : Nat) :
    ((UA_Server_register dmFound dm unregister semaphoreFilePath clientNewOk
          connectResult).usedSlot = none →
      (UA_Server_register dmFound dm unregister semaphoreFilePath clientNewOk
          connectResult).cc = ConfigState.cleared ∧
      (UA_Server_register dmFound dm unregister semaphoreFilePath clientNewOk
          connectResult).registerRequests = dm.registerRequests ∧
      ((UA_Server_register dmFound dm unregister semaphoreFilePath clientNewOk
          connectResult).status = UA_STATUSCODE_BADINTERNALERROR ∨
       (UA_Server_register dmFound dm unregister semaphoreFilePath clientNewOk
          connectResult).status = UA_STATUSCODE_BADOUTOFMEMORY)) ∧
    (∀ i, (UA_Server_register dmFound dm unregister semaphoreFilePath
          clientNewOk connectResult).usedSlot = some i →
      (UA_Server_register dmFound dm unregister semaphoreFilePath clientNewOk
          connectResult).cc = ConfigState.zeroed ∧
      (UA_Server_register dmFound dm unregister semaphoreFilePath clientNewOk
          connectResult).status = connectResult ∧
      i < dm.registerRequests.length ∧
      (∃ ar, dm.registerRequests[i]? = some ar ∧ ar.client = none) ∧
      (UA_Server_register dmFound dm unregister semaphoreFilePath clientNewOk
          connectResult).registerRequests =
        dm.registerRequests.set i
          { client := some (), unregister := unregister,
            semaphoreFilePath := semaphoreFilePath } ∧
      (UA_Server_register dmFound dm unregister semaphoreFilePath clientNewOk
          connectResult).registerRequests[i]? =
        some { client := some (), unregister := unregister,
               semaphoreFilePath := semaphoreFilePath }) ∧
    ((UA_Server_register dmFound dm unregister semaphoreFilePath clientNewOk
        connectResult).status = UA_STATUSCODE_GOOD →
      (UA_Server_register dmFound dm unregister semaphoreFilePath clientNewOk
          connectResult).cc = ConfigState.zeroed) := by
  rcases UA_Server_register_cases dmFound dm unregister semaphoreFilePath
      clientNewOk connectResult with ⟨heq, _⟩ | ⟨heq, _⟩ | ⟨i', hfind, heq⟩
  · refine ⟨?_, ?_, ?_⟩
    · intro _
      rw [heq]
      exact ⟨rfl, rfl, Or.inl rfl⟩
    · intro i hslot
      rw [heq] at hslot
      exact absurd hslot (by simp)
    · intro hg
      rw [heq] at hg
      have hg' : UA_STATUSCODE_BADINTERNALERROR = UA_STATUSCODE_GOOD := hg
      exact absurd hg' (by decide)
  · refine ⟨?_, ?_, ?_⟩
    · intro _
      rw [heq]
      exact ⟨rfl, rfl, Or.inr rfl⟩
    · intro i hslot
      rw [heq] at hslot
      exact absurd hslot (by simp)
    · intro hg
      rw [heq] at hg
      have hg' : UA_STATUSCODE_BADOUTOFMEMORY = UA_STATUSCODE_GOOD := hg
      exact absurd hg' (by decide)
  · have hget := hfind
    rw [findFreeSlot, List.findIdx?_eq_some_iff_getElem] at hget
    obtain ⟨hlt, hfree, _⟩ := hget
    refine ⟨?_, ?_, ?_⟩
    · intro hslot
      rw [heq] at hslot
      exact absurd hslot (by simp)
    · intro i hslot
      rw [heq] at hslot
      simp only [Option.some.injEq] at hslot
      subst hslot
      rw [heq]
      refine ⟨rfl, rfl, hlt, ?_, rfl, ?_⟩
      · refine ⟨dm.registerRequests[i'], ?_, ?_⟩
        · exact List.getElem?_eq_getElem hlt
        · rw [Option.isNone_iff_eq_none] at hfree
          exact hfree
      · exact List.getElem?_set_eq_of_lt _ hlt
    · intro _
      rw [heq]

/-- Witness for C6 (amended) at a successful concrete call. -/
theorem C6_register_ownership_witness :
    ((UA_Server_register true startedManagerOneFreeSlot false "/tmp/s.sem" true
          UA_STATUSCODE_GOOD).usedSlot = none →
      (UA_Server_register true startedManagerOneFreeSlot false "/tmp/s.sem"
          true UA_STATUSCODE_GOOD).cc = ConfigState.cleared ∧
      (UA_Server_register true startedManagerOneFreeSlot false "/tmp/s.sem"
          true UA_STATUSCODE_GOOD).registerRequests =
        startedManagerOneFreeSlot.registerRequests ∧
      ((UA_Server_register true startedManagerOneFreeSlot false "/tmp/s.sem"
          true UA_STATUSCODE_GOOD).status = UA_STATUSCODE_BADINTERNALERROR ∨
       (UA_Server_register true startedManagerOneFreeSlot false "/tmp/s.sem"
          true UA_STATUSCODE_GOOD).status = UA_STATUSCODE_BADOUTOFMEMORY)) ∧
    (∀ i, (UA_Server_register true startedManagerOneFreeSlot false "/tmp/s.sem"
          true UA_STATUSCODE_GOOD).usedSlot = some i →
      (UA_Server_register true startedManagerOneFreeSlot false "/tmp/s.sem"
          true UA_STATUSCODE_GOOD).cc = ConfigState.zeroed ∧
      (UA_Server_register true startedManagerOneFreeSlot false "/tmp/s.sem"
          true UA_STATUSCODE_GOOD).status = UA_STATUSCODE_GOOD ∧
      i < startedManagerOneFreeSlot.registerRequests.length ∧
      (∃ ar, startedManagerOneFreeSlot.registerRequests[i]? = some ar ∧
        ar.client = none) ∧
      (UA_Server_register true startedManagerOneFreeSlot false "/tmp/s.sem"
          true UA_STATUSCODE_GOOD).registerRequests =
        startedManagerOneFreeSlot.registerRequests.set i
          { client := some (), unregister := false,
            semaphoreFilePath := "/tmp/s.sem" } ∧
      (UA_Server_register true startedManagerOneFreeSlot false "/tmp/s.sem"
          true UA_STATUSCODE_GOOD).registerRequests[i]? =
        some { client := some (), unregister := false,
               semaphoreFilePath := "/tmp/s.sem" }) ∧
    ((UA_Server_register true startedManagerOneFreeSlot false "/tmp/s.sem" true
        UA_STATUSCODE_GOOD).status = UA_STATUSCODE_GOOD →
      (UA_Server_register true startedManagerOneFreeSlot false "/tmp/s.sem"
          true UA_STATUSCODE_GOOD).cc = ConfigState.zeroed) :=
  C6_register_ownership true startedManagerOneFreeSlot false "/tmp/s.sem" true
    UA_STATUSCODE_GOOD

/-! ## `UA_DiscoveryManager_stop` and the deferred slot cleanup -/

/-- Observable outcome of `UA_DiscoveryManager_stop`: the manager afterwards,
whether the repeated cleanup callback was removed, the indices of pool slots
whose client received `UA_Client_disconnectSecureChannelAsync`, and whether
the multicast advertiser was stopped. -/
structure StopOutcome where
  dm : UA_DiscoveryManager
  removedCallback : Bool
  disconnectedSlots : List Nat
  multicastStopped : Bool
deriving DecidableEq, Repr

/-- `UA_DiscoveryManager_stop`: a no-op unless `STARTED`; otherwise remove
the cleanup callback, disconnect every occupied slot's client, stop the
multicast advertiser when enabled, and call `setState(STOPPED)`. The slots
themselves are untouched (reclamation is deferred to the state callback). -/
def UA_DiscoveryManager_stop (dm : UA_DiscoveryManager)
    (mdnsEnabled : Bool) : StopOutcome :=
  if dm.sc.state ≠ UA_LifecycleState.STARTED then
    { dm := dm, removedCallback := false, disconnectedSlots := [],
      multicastStopped := false }
  else
    { dm := (UA_DiscoveryManager_setState dm UA_LifecycleState.STOPPED).1,
      removedCallback := true,
      disconnectedSlots := (List.range dm.registerRequests.length).filter
        (fun i => (dm.registerRequests.getD i emptyRegisterRequest).client.isSome),
      multicastStopped := dm.multicastEnabled && mdnsEnabled }

/-- `asyncRegisterRequest_clear`, as fired by the deferred
`cleanupCallback` for slot `i`: clear the semaphore path, delete the client,
zero the whole slot, then re-enter `setState` with the current state. Returns
the manager and the notification emitted by that `setState`. -/
def asyncRegisterRequest_clear (dm : UA_DiscoveryManager) (i : Nat) :
    UA_DiscoveryManager × Option UA_LifecycleState :=
  UA_DiscoveryManager_setState
    { dm with
      registerRequests := dm.registerRequests.set i emptyRegisterRequest }
    dm.sc.state

/-- Claim C7: `stop` is a no-op outside `STARTED`; in `STARTED` it removes
the cleanup callback, disconnects exactly the occupied slots, stops the
multicast advertiser when enabled, and calls `setState(STOPPED)`. -/
theorem C7_stop_behaviour (dm : UA_DiscoveryManager) (mdnsEnabled : Bool) :
    (dm.sc.state ≠ UA_LifecycleState.STARTED →
      UA_DiscoveryManager_stop dm mdnsEnabled =
        { dm := dm, removedCallback := false, disconnectedSlots := [],
          multicastStopped := false }) ∧
    (dm.sc.state = UA_LifecycleState.STARTED →
      (UA_DiscoveryManager_stop dm mdnsEnabled).removedCallback = true ∧
      (∀ i, i ∈ (UA_DiscoveryManager_stop dm mdnsEnabled).disconnectedSlots ↔
        i < dm.registerRequests.length ∧
        (dm.registerRequests.getD i emptyRegisterRequest).client.isSome
          = true) ∧
      (UA_DiscoveryManager_stop dm mdnsEnabled).multicastStopped =
        (dm.multicastEnabled && mdnsEnabled) ∧
      (UA_DiscoveryManager_stop dm mdnsEnabled).dm =
        (UA_DiscoveryManager_setState dm UA_LifecycleState.STOPPED).1) := by
  constructor
  · intro h
    unfold UA_DiscoveryManager_stop
    rw [if_pos h]
  · intro h
    have hne : ¬dm.sc.state ≠ UA_LifecycleState.STARTED := by
      rw [h]
      intro hc
      exact hc rfl
    unfold UA_DiscoveryManager_stop
    rw [if_neg hne]
    refine ⟨rfl, ?_, rfl, rfl⟩
    intro i
    rw [List.mem_filter, List.mem_range]

/-- Witness for C7 at a started manager with one occupied and one free
slot. -/
theorem C7_stop_behaviour_witness :
    (({ sc := { state := UA_LifecycleState.STARTED, notifyInstalled := false },
        multicastEnabled := false, mdnsRecvConnectionsSize := 0,
        mdnsSendConnection := 0,
        registerRequests := [{ client := some (), unregister := false,
                               semaphoreFilePath := "" },
                             emptyRegisterRequest] } :
          UA_DiscoveryManager).sc.state ≠ UA_LifecycleState.STARTED →
      UA_DiscoveryManager_stop
          { sc := { state := UA_LifecycleState.STARTED,
                    notifyInstalled := false },
            multicastEnabled := false, mdnsRecvConnectionsSize := 0,
            mdnsSendConnection := 0,
            registerRequests := [{ client := some (), unregister := false,
                                   semaphoreFilePath := "" },
                                 emptyRegisterRequest] } true =
        { dm := { sc := { state := UA_LifecycleState.STARTED,
                          notifyInstalled := false },
                  multicastEnabled := false, mdnsRecvConnectionsSize := 0,
                  mdnsSendConnection := 0,
                  registerRequests := [{ client := some (), unregister := false,
                                         semaphoreFilePath := "" },
                                       emptyRegisterRequest] },
          removedCallback := false, disconnectedSlots := [],
          multicastStopped := false }) ∧
    (({ sc := { state := UA_LifecycleState.STARTED, notifyInstalled := false },
        multicastEnabled := false, mdnsRecvConnectionsSize := 0,
        mdnsSendConnection := 0,
        registerRequests := [{ client := some (), unregister := false,
                               semaphoreFilePath := "" },
                             emptyRegisterRequest] } :
          UA_DiscoveryManager).sc.state = UA_LifecycleState.STARTED →
      (UA_DiscoveryManager_stop
          { sc := { state := UA_LifecycleState.STARTED,
                    notifyInstalled := false },
            multicastEnabled := false, mdnsRecvConnectionsSize := 0,
            mdnsSendConnection := 0,
            registerRequests := [{ client := some (), unregister := false,
                                   semaphoreFilePath := "" },
                                 emptyRegisterRequest] } true).removedCallback
        = true ∧
      (∀ i, i ∈ (UA_DiscoveryManager_stop
          { sc := { state := UA_LifecycleState.STARTED,
                    notifyInstalled := false },
            multicastEnabled := false, mdnsRecvConnectionsSize := 0,
            mdnsSendConnection := 0,
            registerRequests := [{ client := some (), unregister := false,
                                   semaphoreFilePath := "" },
                                 emptyRegisterRequest] } true).disconnectedSlots
          ↔
        i < ([{ client := some (), unregister := false,
                semaphoreFilePath := "" },
              emptyRegisterRequest] :
                List asyncRegisterRequest).length ∧
        (([{ client := some (), unregister := false, semaphoreFilePath := "" },
           emptyRegisterRequest] :
             List asyncRegisterRequest).getD i
              emptyRegisterRequest).client.isSome = true) ∧
      (UA_DiscoveryManager_stop
          { sc := { state := UA_LifecycleState.STARTED,
                    notifyInstalled := false },
            multicastEnabled := false, mdnsRecvConnectionsSize := 0,
            mdnsSendConnection := 0,
            registerRequests := [{ client := some (), unregister := false,
                                   semaphoreFilePath := "" },
                                 emptyRegisterRequest] } true).multicastStopped
        = (false && true) ∧
      (UA_DiscoveryManager_stop
          { sc := { state := UA_LifecycleState.STARTED,
                    notifyInstalled := false },
            multicastEnabled := false, mdnsRecvConnectionsSize := 0,
            mdnsSendConnection := 0,
            registerRequests := [{ client := some (), unregister := false,
                                   semaphoreFilePath := "" },
                                 emptyRegisterRequest] } true).dm =
        (UA_DiscoveryManager_setState
          { sc := { state := UA_LifecycleState.STARTED,
                    notifyInstalled := false },
            multicastEnabled := false, mdnsRecvConnectionsSize := 0,
            mdnsSendConnection := 0,
            registerRequests := [{ client := some (), unregister := false,
                                   semaphoreFilePath := "" },
                                 emptyRegisterRequest] }
          UA_LifecycleState.STOPPED).1) :=
  C7_stop_behaviour _ true

/-- Claim C8: slot reclamation is always deferred — the state callback on a
failed `connectStatus` with channel state `CLOSED` only enqueues the cleanup
callback (never clears on the callback stack); when the deferred action fires
it zeroes the whole slot and re-enters `setState` with the current state,
which turns `STOPPING` into `STOPPED` once the last residual work is gone. -/
theorem C8_deferred_slot_reclamation (channelState : UA_SecureChannelState)
    (connectStatus securityMode registerCallResult : Nat)
    (dm : UA_DiscoveryManager) (i : Nat) :
    (connectStatus ≠ UA_STATUSCODE_GOOD →
      (channelState = UA_SecureChannelState.CLOSED →
        ClientAction.enqueueCleanupCallback ∈
          discoveryClientStateCallback channelState connectStatus securityMode
            registerCallResult) ∧
      (channelState ≠ UA_SecureChannelState.CLOSED →
        ClientAction.enqueueCleanupCallback ∉
          discoveryClientStateCallback channelState connectStatus securityMode
            registerCallResult)) ∧
    ClientAction.clearSlotNow ∉
      discoveryClientStateCallback channelState connectStatus securityMode
        registerCallResult ∧
    (asyncRegisterRequest_clear dm i =
      UA_DiscoveryManager_setState
        { dm with
          registerRequests := dm.registerRequests.set i emptyRegisterRequest }
        dm.sc.state) ∧
    (i < dm.registerRequests.length →
      (asyncRegisterRequest_clear dm i).1.registerRequests[i]? =
        some emptyRegisterRequest) ∧
    (dm.sc.state = UA_LifecycleState.STOPPING →
      (∀ ar ∈ dm.registerRequests.set i emptyRegisterRequest,
        ar.client = none) →
      (dm.multicastEnabled = true →
        dm.mdnsRecvConnectionsSize = 0 ∧ dm.mdnsSendConnection = 0) →
      (asyncRegisterRequest_clear dm i).1.sc.state =
        UA_LifecycleState.STOPPED) := by
  refine ⟨?_, ?_, rfl, ?_, ?_⟩
  · intro hcs
    constructor
    · intro hcl
      unfold discoveryClientStateCallback
      rw [if_pos hcs, if_pos hcl]
      simp
    · intro hcl
      unfold discoveryClientStateCallback
      rw [if_pos hcs, if_neg hcl]
      split <;> simp
  · unfold discoveryClientStateCallback
    split
    · split <;> split <;> simp
    · split
      · simp
      · split
        · simp
        · split <;> simp
  · intro hlt
    unfold asyncRegisterRequest_clear
    rw [setState_registerRequests]
    exact List.getElem?_set_eq_of_lt _ hlt
  · intro hstate hall hmc
    unfold asyncRegisterRequest_clear
    rw [setState_state_eq_effectiveTarget]
    rw [effectiveTarget_stopped_iff _ _ (Or.inl hstate)]
    refine ⟨?_, hall⟩
    rintro ⟨hm, hres⟩
    obtain ⟨h1, h2⟩ := hmc hm
    rcases hres with h | h
    · exact h h1
    · exact h h2

/-- Witness for C8 at a failed connection with a closed channel and a
draining manager whose last slot is being cleared. -/
theorem C8_deferred_slot_reclamation_witness :
    (UA_STATUSCODE_BADCONNECTIONCLOSED ≠ UA_STATUSCODE_GOOD →
      (UA_SecureChannelState.CLOSED = UA_SecureChannelState.CLOSED →
        ClientAction.enqueueCleanupCallback ∈
          discoveryClientStateCallback UA_SecureChannelState.CLOSED
            UA_STATUSCODE_BADCONNECTIONCLOSED UA_MESSAGESECURITYMODE_INVALID
            UA_STATUSCODE_GOOD) ∧
      (UA_SecureChannelState.CLOSED ≠ UA_SecureChannelState.CLOSED →
        ClientAction.enqueueCleanupCallback ∉
          discoveryClientStateCallback UA_SecureChannelState.CLOSED
            UA_STATUSCODE_BADCONNECTIONCLOSED UA_MESSAGESECURITYMODE_INVALID
            UA_STATUSCODE_GOOD)) ∧
    ClientAction.clearSlotNow ∉
      discoveryClientStateCallback UA_SecureChannelState.CLOSED
        UA_STATUSCODE_BADCONNECTIONCLOSED UA_MESSAGESECURITYMODE_INVALID
        UA_STATUSCODE_GOOD ∧
    (asyncRegisterRequest_clear
        { sc := { state := UA_LifecycleState.STOPPING,
                  notifyInstalled := true },
          multicastEnabled := false, mdnsRecvConnectionsSize := 0,
          mdnsSendConnection := 0,
          registerRequests := [{ client := some (), unregister := false,
                                 semaphoreFilePath := "/tmp/s.sem" }] } 0 =
      UA_DiscoveryManager_setState
        { sc := { state := UA_LifecycleState.STOPPING,
                  notifyInstalled := true },
          multicastEnabled := false, mdnsRecvConnectionsSize := 0,
          mdnsSendConnection := 0,
          registerRequests :=
            ([{ client := some (), unregister := false,
                semaphoreFilePath := "/tmp/s.sem" }] :
                  List asyncRegisterRequest).set 0 emptyRegisterRequest }
        UA_LifecycleState.STOPPING) ∧
    (0 < ([{ client := some (), unregister := false,
             semaphoreFilePath := "/tmp/s.sem" }] :
               List asyncRegisterRequest).length →
      (asyncRegisterRequest_clear
          { sc := { state := UA_LifecycleState.STOPPING,
                    notifyInstalled := true },
            multicastEnabled := false, mdnsRecvConnectionsSize := 0,
            mdnsSendConnection := 0,
            registerRequests := [{ client := some (), unregister := false,
                                   semaphoreFilePath := "/tmp/s.sem" }] }
          0).1.registerRequests[0]? = some emptyRegisterRequest) ∧
    (UA_LifecycleState.STOPPING = UA_LifecycleState.STOPPING →
      (∀ ar ∈ ([{ client := some (), unregister := false,
                  semaphoreFilePath := "/tmp/s.sem" }] :
                    List asyncRegisterRequest).set 0 emptyRegisterRequest,
        ar.client = none) →
      (false = true → (0 : Nat) = 0 ∧ (0 : Nat) = 0) →
      (asyncRegisterRequest_clear
          { sc := { state := UA_LifecycleState.STOPPING,
                    notifyInstalled := true },
            multicastEnabled := false, mdnsRecvConnectionsSize := 0,
            mdnsSendConnection := 0,
            registerRequests := [{ client := some (), unregister := false,
                                   semaphoreFilePath := "/tmp/s.sem" }] }
          0).1.sc.state = UA_LifecycleState.STOPPED) :=
  C8_deferred_slot_reclamation UA_SecureChannelState.CLOSED
    UA_STATUSCODE_BADCONNECTIONCLOSED UA_MESSAGESECURITYMODE_INVALID
    UA_STATUSCODE_GOOD _ 0

end UADiscovery
